import Mathlib

/-
Shallow embedding of the geospatial-temporal query engine of the
Weather-Data-Visualizer repository (src/routes.py, with the older duplicate
in src/app.py).  Machine floats of the source are modelled as exact numbers
(ℚ for data values and coordinates, ℤ for time instants in minutes); missing
values (NaN) are modelled as `Option.none`; Python exceptions and error
returns are modelled with `Except`.
-/

/-! ## Substring matching

Python's `"pat" in s` substring test, on explicit character lists. -/

/-- Model of: the pattern is a prefix of the text (character lists). -/
def startsHere : List Char → List Char → Bool
  | [], _ => true
  | _ :: _, [] => false
  | p :: ps, c :: cs => p == c && startsHere ps cs

/-- Model of Python's `pat in s` substring containment on character lists. -/
def occursIn (pat : List Char) : List Char → Bool
  | [] => startsHere pat []
  | c :: cs => startsHere pat (c :: cs) || occursIn pat cs

/-- Model of Python's `str.lower()` on one character (the names the engine
inspects are ASCII, so ASCII lowering is the relevant fragment). -/
def lowerChar (c : Char) : Char :=
  if 65 ≤ c.toNat && c.toNat ≤ 90 then Char.ofNat (c.toNat + 32) else c

/-- Model of `pat in s.lower()` as used throughout src/routes.py:
lowercase the coordinate name, then test substring containment. -/
def hasSub (s pat : String) : Bool := occursIn pat.data (s.data.map lowerChar)

/-! ## Dimension Classifier

Model of the coordinate-detection loop of `get_timeseries`
(src/routes.py lines 345-353, identical in src/app.py lines 321-333 and in
`download_timeseries_csv` lines 470-475):

    for coord in ds.coords:
        c = str(coord).lower()
        if 'lat' in c: lat_var = coord
        elif 'lon' in c: lon_var = coord
        elif 'time' in c or 'date' in c: time_var = coord
-/

/-- Role assignment produced by the Dimension Classifier. -/
structure Roles where
  lat : Option String
  lon : Option String
  time : Option String
deriving DecidableEq

/-- One iteration of the coordinate-detection loop body. -/
def classifyStep (r : Roles) (n : String) : Roles :=
  if hasSub n "lat" then { r with lat := some n }
  else if hasSub n "lon" then { r with lon := some n }
  else if hasSub n "time" || hasSub n "date" then { r with time := some n }
  else r

/-- The coordinate-detection loop over the dataset's coordinate names,
starting from all-unassigned roles. -/
def classifyCoords (names : List String) : Roles :=
  names.foldl classifyStep ⟨none, none, none⟩

/-- Modelled from the amended reading of the spec: the LAST name (in input
order) whose lowercased form contains "lat". -/
def lastLatMatch (names : List String) : Option String :=
  (names.filter (fun m => hasSub m "lat")).getLast?

lemma classifyStep_lat_of_not (r : Roles) (n : String) (h : hasSub n "lat" = false) :
    (classifyStep r n).lat = r.lat := by
  unfold classifyStep
  rw [h]
  by_cases h2 : hasSub n "lon" = true
  · simp [h2]
  · simp only [Bool.not_eq_true] at h2
    by_cases h3 : (hasSub n "time" || hasSub n "date") = true
    · simp [h2, h3]
    · simp only [Bool.not_eq_true] at h3
      simp [h2, h3]

lemma classifyStep_lat_of_match (r : Roles) (n : String) (h : hasSub n "lat" = true) :
    (classifyStep r n).lat = some n := by
  unfold classifyStep
  rw [h]
  simp

lemma classify_foldl_lat (names : List String) :
    ∀ r : Roles, (names.foldl classifyStep r).lat =
      ((names.filter (fun m => hasSub m "lat")).getLast?).elim r.lat some := by
  induction names with
  | nil => intro r; rfl
  | cons n ns ih =>
    intro r
    rw [List.foldl_cons, ih (classifyStep r n)]
    by_cases hp : hasSub n "lat" = true
    · have hf : (n :: ns).filter (fun m => hasSub m "lat")
          = n :: ns.filter (fun m => hasSub m "lat") := by
        simp [List.filter_cons, hp]
      rw [hf]
      cases hfe : ns.filter (fun m => hasSub m "lat") with
      | nil => simp [hfe, classifyStep_lat_of_match r n hp]
      | cons m ms =>
        rw [List.getLast?_cons_cons]
        cases hg : (m :: ms).getLast? with
        | none =>
          rw [List.getLast?_eq_none_iff] at hg
          exact absurd hg (by simp)
        | some g => rfl
    · simp only [Bool.not_eq_true] at hp
      have hf : (n :: ns).filter (fun m => hasSub m "lat")
          = ns.filter (fun m => hasSub m "lat") := by
        simp [List.filter_cons, hp]
      rw [hf, classifyStep_lat_of_not r n hp]

/-- C1 counterexample: with coordinate names ["xlat", "ylat"] (both contain
"lat"), the classifier assigns the latitude role to "ylat", the LAST matching
name, not to the first one "xlat" as the claim states. -/
theorem C1_counterexample :
    (classifyCoords ["xlat", "ylat"]).lat = some "ylat" ∧
    (classifyCoords ["xlat", "ylat"]).lat ≠ some "xlat" := by
  decide

/-- C1 (amended): for every ordered sequence of coordinate names, the
Dimension Classifier assigns the latitude role to the LAST name in input
order whose lowercased form contains the substring "lat" (each later
matching name overwrites the earlier assignment); if no name matches, no
latitude role is assigned. -/
theorem C1_amended (names : List String) :
    (classifyCoords names).lat = lastLatMatch names := by
  unfold classifyCoords lastLatMatch
  rw [classify_foldl_lat names ⟨none, none, none⟩]
  cases (names.filter (fun n => hasSub n "lat")).getLast? with
  | none => rfl
  | some g => rfl

/-! ## Unit Normalizer

Model of the Kelvin-to-Celsius conversion of `get_timeseries`
(src/routes.py lines 398-403; same logic in `download_timeseries_csv`
lines 493-498):

    units = var_data.attrs.get('units', '').lower()
    if 'k' in units:
        var_data = var_data - 273.15
        var_data.attrs['units'] = 'C'

A variable's unit attribute is `Option String` (absent = `none`); its values
are `List (Option ℚ)` (NaN = `none`; NaN - 273.15 = NaN). -/

/-- Model of `'k' in (attrs.get('units', '')).lower()`. -/
def unitsHasK (u : Option String) : Bool :=
  occursIn ['k'] ((u.getD "").data.map lowerChar)

/-- The Unit Normalizer: rewrites (unit attribute, values) of one variable. -/
def normalizeUnit (p : Option String × List (Option ℚ)) :
    Option String × List (Option ℚ) :=
  if unitsHasK p.1 then
    (some "C", p.2.map (Option.map (fun v => v - 273.15)))
  else p

lemma normalizeUnit_length (u : Option String) (vs : List (Option ℚ)) :
    (normalizeUnit (u, vs)).2.length = vs.length := by
  unfold normalizeUnit
  by_cases h : unitsHasK u = true
  · simp [h]
  · simp only [Bool.not_eq_true] at h
    simp [h]

/-- C6: if the lowercased unit string contains "k", the Unit Normalizer
subtracts 273.15 from every value and rewrites the unit attribute to "C";
if it does not contain "k", or the unit attribute is absent, both the
values and the unit attribute are unchanged. -/
theorem C6_theorem (u : Option String) (vs : List (Option ℚ)) :
    (unitsHasK u = true →
      normalizeUnit (u, vs) =
        (some "C", vs.map (Option.map (fun v => v - 273.15)))) ∧
    (unitsHasK u = false → normalizeUnit (u, vs) = (u, vs)) ∧
    (u = none → normalizeUnit (u, vs) = (u, vs)) := by
  refine ⟨fun h => ?_, fun h => ?_, fun h => ?_⟩
  · simp [normalizeUnit, h]
  · simp [normalizeUnit, h]
  · subst h
    have hk : unitsHasK none = false := by decide
    simp [normalizeUnit, hk]

/-- C6 witness: unit "K" with values [273.15, 283.15] becomes unit "C" with
values [0, 10]; unit "m" is left untouched. -/
theorem C6_witness :
    normalizeUnit (some "K", [some (273.15 : ℚ), some (283.15 : ℚ)])
      = (some "C", [some (0 : ℚ), some (10 : ℚ)]) ∧
    normalizeUnit (some "m", [some (5 : ℚ)]) = (some "m", [some (5 : ℚ)]) := by
  constructor
  · rw [(C6_theorem (some "K") [some (273.15 : ℚ), some (283.15 : ℚ)]).1 (by decide)]
    norm_num
  · exact (C6_theorem (some "m") [some (5 : ℚ)]).2.1 (by decide)

/-! ## Series Reducer (chart-building loop of `get_timeseries`)

Model of src/routes.py lines 390-435:

    for var_name in ds.data_vars:
        var_data = point[var_name]
        if var_data.size == 0 or var_data.isnull().all(): continue
        # Kelvin -> Celsius conversion (the Unit Normalizer above)
        if time_var and time_var in var_data.dims:
            times = var_data[time_var].values
            values = var_data.values
            if len(times) == 0 or len(values) == 0: continue
            charts[var_name] = <figure of (times, values)>

A variable already restricted to the resolved point (and sliced window) is
(name, unit attribute, whether the time dimension is among its dims, values). -/

/-- One data variable of the dataset, as seen at the resolved point. -/
structure PVar where
  name : String
  units : Option String
  hasTimeDim : Bool
  vals : List (Option ℚ)
deriving DecidableEq

/-- The chart-building loop: which (variable name, plotted values) entries
the time-series response contains.  `tr` is whether a time role was
resolved (`time_var` is not None). -/
def buildCharts (tr : Bool) : List PVar → List (String × List (Option ℚ))
  | [] => []
  | v :: rest =>
    if v.vals.length == 0 || v.vals.all Option.isNone then buildCharts tr rest
    else
      if tr && v.hasTimeDim then
        if (normalizeUnit (v.units, v.vals)).2.length == 0 then buildCharts tr rest
        else (v.name, (normalizeUnit (v.units, v.vals)).2) :: buildCharts tr rest
      else buildCharts tr rest

/-- C2 counterexample: a variable without the time dimension whose value at
the resolved point is present (non-missing) yields NO entry in the
time-series response, contradicting the claim that every variable with at
least one non-missing value gets an entry. -/
theorem C2_counterexample :
    ((⟨"elev", none, false, [some (1 : ℚ)]⟩ : PVar).vals.all Option.isNone) = false ∧
    buildCharts true [⟨"elev", none, false, [some (1 : ℚ)]⟩] = [] := by
  decide

/-- C2 (amended): the time-series response contains an entry exactly for the
variables that have a resolved time role AND the time dimension among their
dims AND at least one non-missing value at the resolved point within the
active window; entirely-missing or empty variables, and variables without
the time dimension, do not appear at all. -/
theorem C2_amended (tr : Bool) (vars : List PVar) :
    (∀ x, x ∈ buildCharts tr vars → ∃ v, v ∈ vars ∧ v.name = x.1 ∧
      v.vals ≠ [] ∧ v.vals.all Option.isNone = false ∧ tr = true ∧
      v.hasTimeDim = true ∧ x.2 = (normalizeUnit (v.units, v.vals)).2) ∧
    (∀ v, v ∈ vars → tr = true → v.hasTimeDim = true →
      v.vals.all Option.isNone = false →
      (v.name, (normalizeUnit (v.units, v.vals)).2) ∈ buildCharts tr vars) := by
  induction vars with
  | nil => exact ⟨fun x hx => absurd hx (by simp [buildCharts]), fun v hv => absurd hv (by simp)⟩
  | cons v rest ih =>
    constructor
    · intro x hx
      by_cases h1 : (v.vals.length == 0 || v.vals.all Option.isNone) = true
      · rw [buildCharts, if_pos h1] at hx
        obtain ⟨w, hw, rest'⟩ := ih.1 x hx
        exact ⟨w, List.mem_cons_of_mem v hw, rest'⟩
      · rw [buildCharts, if_neg h1] at hx
        simp only [Bool.or_eq_true, not_or, Bool.not_eq_true] at h1
        obtain ⟨hlen, hnone⟩ := h1
        by_cases h2 : (tr && v.hasTimeDim) = true
        · rw [if_pos h2] at hx
          by_cases h3 : ((normalizeUnit (v.units, v.vals)).2.length == 0) = true
          · rw [if_pos h3] at hx
            obtain ⟨w, hw, rest'⟩ := ih.1 x hx
            exact ⟨w, List.mem_cons_of_mem v hw, rest'⟩
          · rw [if_neg h3] at hx
            rcases List.mem_cons.mp hx with hx | hx
            · subst hx
              simp only [Bool.and_eq_true] at h2
              refine ⟨v, List.mem_cons_self v rest, rfl, ?_, hnone, h2.1, h2.2, rfl⟩
              intro hnil
              rw [hnil] at hlen
              simp at hlen
            · obtain ⟨w, hw, rest'⟩ := ih.1 x hx
              exact ⟨w, List.mem_cons_of_mem v hw, rest'⟩
        · rw [if_neg h2] at hx
          obtain ⟨w, hw, rest'⟩ := ih.1 x hx
          exact ⟨w, List.mem_cons_of_mem v hw, rest'⟩
    · intro w hw htr htd hnone
      rcases List.mem_cons.mp hw with hw | hw
      · subst hw
        have hnil : w.vals ≠ [] := by
          intro hnil
          rw [hnil] at hnone
          simp at hnone
        have h1 : (w.vals.length == 0 || w.vals.all Option.isNone) = false := by
          simp [hnone, List.length_eq_zero, hnil]
        have h3 : ((normalizeUnit (w.units, w.vals)).2.length == 0) = false := by
          rw [normalizeUnit_length]
          simp [List.length_eq_zero, hnil]
        rw [buildCharts, if_neg (by simp [h1]), if_pos (by simp [htr, htd]),
          if_neg (by simp [h3])]
        exact List.mem_cons_self _ _
      · have hmem := ih.2 w hw htr htd hnone
        rw [buildCharts]
        by_cases h1 : (v.vals.length == 0 || v.vals.all Option.isNone) = true
        · rw [if_pos h1]; exact hmem
        · rw [if_neg h1]
          by_cases h2 : (tr && v.hasTimeDim) = true
          · rw [if_pos h2]
            by_cases h3 : ((normalizeUnit (v.units, v.vals)).2.length == 0) = true
            · rw [if_pos h3]; exact hmem
            · rw [if_neg h3]; exact List.mem_cons_of_mem _ hmem
          · rw [if_neg h2]; exact hmem

/-- C2 witness: a temperature variable with the time dimension and a
non-missing value appears in the response (with its Kelvin values
converted). -/
theorem C2_witness :
    ((⟨"t2m", some "K", true, [some (273.15 : ℚ)]⟩ : PVar).name,
      (normalizeUnit ((⟨"t2m", some "K", true, [some (273.15 : ℚ)]⟩ : PVar).units,
        (⟨"t2m", some "K", true, [some (273.15 : ℚ)]⟩ : PVar).vals)).2)
      ∈ buildCharts true [⟨"t2m", some "K", true, [some (273.15 : ℚ)]⟩] :=
  (C2_amended true [⟨"t2m", some "K", true, [some (273.15 : ℚ)]⟩]).2
    ⟨"t2m", some "K", true, [some (273.15 : ℚ)]⟩
    (List.mem_singleton.mpr rfl) rfl rfl (by decide)

/-! ## Point Resolver

Model of `ds.sel({lat_var: lat, lon_var: lon}, method='nearest')`
(src/routes.py line 386 and line 488): per-axis nearest-match selection on
the coordinate arrays, as documented for the underlying label lookup
(`method='nearest'`; ties broken towards the later index). -/

/-- One comparison step of nearest-match selection: keep whichever of the
current best `b` and the candidate `y` is closer to the query `q` (the
candidate wins ties, matching the later-index tie-break). -/
def nearStep (q b y : ℚ) : ℚ := if |y - q| ≤ |b - q| then y else b

/-- Nearest-match selection of a single coordinate axis: the value of the
array closest to the query (none on an empty axis). -/
def nearestVal (q : ℚ) : List ℚ → Option ℚ
  | [] => none
  | x :: rest => some (rest.foldl (fun b y => nearStep q b y) x)

/-- The Point Resolver: per-axis nearest match on the latitude and the
longitude coordinate arrays. -/
def resolvePoint (lats lons : List ℚ) (qlat qlon : ℚ) : Option (ℚ × ℚ) :=
  match nearestVal qlat lats, nearestVal qlon lons with
  | some a, some b => some (a, b)
  | _, _ => none

lemma nearStep_cases (q b y : ℚ) : nearStep q b y = b ∨ nearStep q b y = y := by
  unfold nearStep
  by_cases h : |y - q| ≤ |b - q|
  · exact Or.inr (if_pos h)
  · exact Or.inl (if_neg h)

lemma nearStep_le_left (q b y : ℚ) : |nearStep q b y - q| ≤ |b - q| := by
  unfold nearStep
  by_cases h : |y - q| ≤ |b - q|
  · rw [if_pos h]; exact h
  · rw [if_neg h]

lemma nearStep_le_right (q b y : ℚ) : |nearStep q b y - q| ≤ |y - q| := by
  unfold nearStep
  by_cases h : |y - q| ≤ |b - q|
  · rw [if_pos h]
  · rw [if_neg h]; exact le_of_not_le h

lemma nearFold_mem (q : ℚ) (rest : List ℚ) :
    ∀ b : ℚ, rest.foldl (fun b y => nearStep q b y) b ∈ b :: rest := by
  induction rest with
  | nil => intro b; exact List.mem_singleton.mpr rfl
  | cons y rest ih =>
    intro b
    rw [List.foldl_cons]
    rcases nearStep_cases q b y with h | h
    · rcases List.mem_cons.mp (ih (nearStep q b y)) with h2 | h2
      · rw [h2, h]; exact List.mem_cons_self _ _
      · exact List.mem_cons_of_mem _ (List.mem_cons_of_mem _ h2)
    · rcases List.mem_cons.mp (ih (nearStep q b y)) with h2 | h2
      · rw [h2, h]
        exact List.mem_cons_of_mem _ (List.mem_cons_self _ _)
      · exact List.mem_cons_of_mem _ (List.mem_cons_of_mem _ h2)

lemma nearFold_min (q : ℚ) (rest : List ℚ) :
    ∀ b y : ℚ, y ∈ b :: rest →
      |rest.foldl (fun b y => nearStep q b y) b - q| ≤ |y - q| := by
  induction rest with
  | nil =>
    intro b y hy
    rw [List.mem_singleton.mp hy]
    exact le_refl _
  | cons a rest ih =>
    intro b y hy
    rw [List.foldl_cons]
    rcases List.mem_cons.mp hy with h | h
    · subst h
      exact le_trans (ih (nearStep q y a) _ (List.mem_cons_self _ _))
        (nearStep_le_left q y a)
    · rcases List.mem_cons.mp h with h2 | h2
      · subst h2
        exact le_trans (ih (nearStep q b y) _ (List.mem_cons_self _ _))
          (nearStep_le_right q b y)
      · exact ih (nearStep q b a) y (List.mem_cons_of_mem _ h2)

lemma nearestVal_spec (q : ℚ) (xs : List ℚ) (h : xs ≠ []) :
    ∃ r, nearestVal q xs = some r ∧ r ∈ xs ∧ ∀ y ∈ xs, |r - q| ≤ |y - q| := by
  cases xs with
  | nil => exact absurd rfl h
  | cons x rest =>
    refine ⟨rest.foldl (fun b y => nearStep q b y) x, rfl, nearFold_mem q rest x, ?_⟩
    intro y hy
    exact nearFold_min q rest x y hy

lemma nearestVal_idem (r : ℚ) (xs : List ℚ) (hr : r ∈ xs) :
    nearestVal r xs = some r := by
  obtain ⟨r', h1, h2, h3⟩ := nearestVal_spec r xs (List.ne_nil_of_mem hr)
  have h0 : |r' - r| ≤ 0 := by
    have := h3 r hr
    simpa using this
  have : r' = r := by
    have habs : |r' - r| = 0 := le_antisymm h0 (abs_nonneg _)
    have := abs_eq_zero.mp habs
    linarith
  rw [h1, this]

/-- C3: for every query (lat, lon) pair — including pairs outside the grid
extent — the Point Resolver returns a latitude belonging to the latitude
coordinate array and a longitude belonging to the longitude coordinate
array (per-axis nearest match, never interpolated), and resolving the
already-resolved point returns the same point. -/
theorem C3_theorem (lats lons : List ℚ) (qlat qlon : ℚ)
    (hla : lats ≠ []) (hlo : lons ≠ []) :
    ∃ a b, resolvePoint lats lons qlat qlon = some (a, b) ∧
      a ∈ lats ∧ b ∈ lons ∧ resolvePoint lats lons a b = some (a, b) := by
  obtain ⟨a, ha1, ha2, ha3⟩ := nearestVal_spec qlat lats hla
  obtain ⟨b, hb1, hb2, hb3⟩ := nearestVal_spec qlon lons hlo
  refine ⟨a, b, ?_, ha2, hb2, ?_⟩
  · unfold resolvePoint
    rw [ha1, hb1]
  · unfold resolvePoint
    rw [nearestVal_idem a lats ha2, nearestVal_idem b lons hb2]

/-- C3 witness: on the grid lats = [0, 10], lons = [5], the out-of-grid
query (99, -3) resolves to the grid point (10, 5), which resolves to
itself. -/
theorem C3_witness :
    ([(0 : ℚ), 10] ≠ ([] : List ℚ)) ∧ ([(5 : ℚ)] ≠ ([] : List ℚ)) ∧
    ∃ a b, resolvePoint [(0 : ℚ), 10] [(5 : ℚ)] 99 (-3) = some (a, b) ∧
      a ∈ [(0 : ℚ), 10] ∧ b ∈ [(5 : ℚ)] ∧
      resolvePoint [(0 : ℚ), 10] [(5 : ℚ)] a b = some (a, b) :=
  ⟨by simp, by simp,
    C3_theorem [(0 : ℚ), 10] [(5 : ℚ)] 99 (-3) (by simp) (by simp)⟩

/-! ## Time Window Slicer: timezone reconciliation

Model of src/routes.py lines 359-372 (`get_timeseries`):

    if pd.api.types.is_datetime64tz_dtype(ds[time_var]):
        if start.tzinfo is None: start = start.tz_localize(ds[time_var].dt.tz)
        if end.tzinfo is None:   end   = end.tz_localize(ds[time_var].dt.tz)
    else:
        if start.tzinfo is not None: start = start.tz_convert(None)
        if end.tzinfo is not None:   end   = end.tz_convert(None)
    ds = ds.sel({time_var: slice(start, end)})

and of lines 481-483 (`download_timeseries_csv`), which slice with the
parsed bounds directly, with no timezone reconciliation:

    ds = ds.sel({time_var: slice(start, end)})

A timestamp is a wall-clock instant (minutes) plus an optional fixed
timezone offset (minutes); `none` = timezone-naive.  The underlying label
slicing raises a comparison-type error when a bound's awareness differs
from the axis's awareness, exactly as the date-time index library does. -/

/-- A timestamp: wall-clock reading plus optional timezone offset. -/
structure Stamp where
  wall : Int
  tz : Option Int
deriving DecidableEq

/-- The absolute (UTC) instant of a timestamp: aware stamps subtract their
offset, naive stamps are read as-is. -/
def utcOf (s : Stamp) : Int := s.wall - s.tz.getD 0

/-- Comparison of two awareness-compatible timestamps. -/
def instantLe (a b : Stamp) : Bool := decide (utcOf a ≤ utcOf b)

/-- The tz-awareness matching of `get_timeseries` applied to one bound:
a naive bound against an aware axis is localized to the axis timezone
(`tz_localize`); an aware bound against a naive axis is converted to naive
UTC form (`tz_convert(None)`); otherwise the bound is untouched. -/
def matchTz (axisTz : Option Int) (b : Stamp) : Stamp :=
  match axisTz, b.tz with
  | some z, none => ⟨b.wall, some z⟩
  | some _, some _ => b
  | none, some zb => ⟨b.wall - zb, none⟩
  | none, none => b

/-- Label-based inclusive slicing of a time axis (`ds.sel(slice(start,
end))`): raises a comparison-type error if a bound's tz-awareness differs
from the axis's, otherwise keeps the instants between the bounds. -/
def sliceStamps (axisTz : Option Int) (walls : List Int) (s e : Stamp) :
    Except String (List Int) :=
  if s.tz.isSome == axisTz.isSome && e.tz.isSome == axisTz.isSome then
    Except.ok (walls.filter
      (fun w => instantLe s ⟨w, axisTz⟩ && instantLe ⟨w, axisTz⟩ e))
  else Except.error "Cannot compare tz-naive and tz-aware timestamps"

/-- The time-slicing step of `get_timeseries`: tz reconciliation, then
slicing (src/routes.py lines 359-372). -/
def getTimeseriesSlice (axisTz : Option Int) (walls : List Int) (s e : Stamp) :
    Except String (List Int) :=
  sliceStamps axisTz walls (matchTz axisTz s) (matchTz axisTz e)

/-- The time-slicing step of `download_timeseries_csv`: slicing with the
parsed bounds as-is, no tz reconciliation (src/routes.py lines 481-483). -/
def exportRawSlice (axisTz : Option Int) (walls : List Int) (s e : Stamp) :
    Except String (List Int) :=
  sliceStamps axisTz walls s e

lemma matchTz_isSome (tz : Option Int) (b : Stamp) :
    (matchTz tz b).tz.isSome = tz.isSome := by
  cases b with
  | mk w btz => cases tz <;> cases btz <;> simp [matchTz]

/-- C4 counterexample: the export operation's slicing applies NO timezone
reconciliation, so a tz-aware bound (offset +0, the spec's
"2024-01-01T00:00:00+00:00") against a naive time axis fails with a
comparison-type error instead of succeeding, refuting the claim for the
export code path it cites. -/
theorem C4_counterexample :
    exportRawSlice none [0, 1440] ⟨0, some 0⟩ ⟨12960, some 0⟩
      = Except.error "Cannot compare tz-naive and tz-aware timestamps" := rfl

/-- C4 (amended): the TIME-SERIES QUERY path reconciles tz-awareness before
comparison — a naive bound is localized to the dataset's timezone when the
axis is aware, an aware bound is converted to naive form when the axis is
naive — and its slicing always succeeds without a comparison-type error;
the export path slices with the unreconciled parsed bounds. -/
theorem C4_amended (axisTz : Option Int) (walls : List Int) (s e : Stamp) :
    (matchTz axisTz s).tz.isSome = axisTz.isSome ∧
    (∀ z w, matchTz (some z) ⟨w, none⟩ = ⟨w, some z⟩) ∧
    (∀ zb w, matchTz none ⟨w, some zb⟩ = ⟨w - zb, none⟩) ∧
    ∃ l, getTimeseriesSlice axisTz walls s e = Except.ok l := by
  refine ⟨matchTz_isSome axisTz s, fun z w => rfl, fun zb w => rfl, ?_⟩
  unfold getTimeseriesSlice sliceStamps
  have hc : ((matchTz axisTz s).tz.isSome == axisTz.isSome &&
      (matchTz axisTz e).tz.isSome == axisTz.isSome) = true := by
    rw [matchTz_isSome axisTz s, matchTz_isSome axisTz e]
    simp
  rw [if_pos hc]
  exact ⟨_, rfl⟩

/-! ## Time Window Slicer: empty windows and the export end-bound shift

The naive-timestamp slice (`ds.sel({time_var: slice(start, end)})`) with
the emptiness check that follows it in both routes, on instants in minutes
(1 day = 1440 minutes):

`get_timeseries` (src/routes.py lines 337-338, 372, 378-379) slices with
the parsed end date itself; `download_timeseries_csv` (lines 463-465,
481-485) slices with end + 1 day and then restores `end = end - 1 day`
before printing the metadata date range (lines 543, 576, 627, 653). -/

/-- Minutes per day: the `pd.Timedelta(days=1)` of the export route. -/
def oneDay : Int := 1440

/-- Inclusive label slicing of a (naive) time axis. -/
def sliceTimes (times : List Int) (s e : Int) : List Int :=
  times.filter (fun t => decide (s ≤ t) && decide (t ≤ e))

/-- The end bound `download_timeseries_csv` actually slices with
(line 464: `end = pd.to_datetime(...) + pd.Timedelta(days=1)`). -/
def exportEndBound (e : Int) : Int := e + oneDay

/-- The end value shown in the export's metadata date-range line
(line 483: `end = end - pd.Timedelta(days=1)` before the headers). -/
def exportMetaEnd (e : Int) : Int := exportEndBound e - oneDay

/-- The end bound `get_timeseries` slices with: the supplied end itself. -/
def queryEndBound (e : Int) : Int := e

/-- The time axis the export route works on after slicing. -/
def exportSliceUsed (times : List Int) (s e : Int) : List Int :=
  sliceTimes times s (exportEndBound e)

/-- The time axis the time-series query works on after slicing. -/
def querySliceUsed (times : List Int) (s e : Int) : List Int :=
  sliceTimes times s (queryEndBound e)

/-- Slice-then-check of `get_timeseries` (lines 372, 378-379). -/
def tsSliceCheck (times : List Int) (s e : Int) : Except String (List Int) :=
  let d := querySliceUsed times s e
  if d.length = 0 then Except.error "No data in selected date range"
  else Except.ok d

/-- Slice-then-check of `download_timeseries_csv` (lines 481-485). -/
def exportSliceCheck (times : List Int) (s e : Int) : Except String (List Int) :=
  let d := exportSliceUsed times s e
  if d.length = 0 then Except.error "No data in selected date range"
  else Except.ok d

/-- C5: whenever the slice yields zero time steps (in particular when the
end bound lies strictly before the start), both the time-series query and
the export fail with the empty-time-window error, and neither ever returns
a successful response with an empty series. -/
theorem C5_theorem (times : List Int) (s e : Int) :
    (querySliceUsed times s e = [] →
      tsSliceCheck times s e = Except.error "No data in selected date range") ∧
    (exportSliceUsed times s e = [] →
      exportSliceCheck times s e = Except.error "No data in selected date range") ∧
    (e < s → tsSliceCheck times s e = Except.error "No data in selected date range") ∧
    (e + oneDay < s →
      exportSliceCheck times s e = Except.error "No data in selected date range") ∧
    (∀ l, tsSliceCheck times s e = Except.ok l → l ≠ []) ∧
    (∀ l, exportSliceCheck times s e = Except.ok l → l ≠ []) := by
  have hnil : ∀ e' : Int, e' < s → sliceTimes times s e' = [] := by
    intro e' he'
    apply List.filter_eq_nil_iff.mpr
    intro t _ hpred
    simp only [Bool.and_eq_true, decide_eq_true_eq] at hpred
    exact absurd (lt_of_le_of_lt (le_trans hpred.1 hpred.2) he') (lt_irrefl s)
  have herr : ∀ d : List Int, d = [] →
      (if d.length = 0 then (Except.error "No data in selected date range" : Except String (List Int))
       else Except.ok d) = Except.error "No data in selected date range" := by
    intro d hd
    rw [hd]
    rfl
  have hok : ∀ d l : List Int,
      (if d.length = 0 then (Except.error "No data in selected date range" : Except String (List Int))
       else Except.ok d) = Except.ok l → l ≠ [] := by
    intro d l h
    by_cases hz : d.length = 0
    · rw [if_pos hz] at h
      exact absurd h (by simp)
    · rw [if_neg hz] at h
      have : d = l := by injection h
      subst this
      exact fun hl => hz (by rw [hl]; rfl)
  refine ⟨fun h => herr _ h, fun h => herr _ h, ?_, ?_, fun l => hok _ l, fun l => hok _ l⟩
  · intro hlt
    exact herr _ (hnil e hlt)
  · intro hlt
    exact herr _ (hnil (e + oneDay) hlt)

/-- C5 witness: with start = "2024-06-01" and end = "2024-05-01" (end a full
month before start, encoded as minute instants 1000000 and 900000) both
routes report the empty-window error on a dataset whose only time step lies
outside the window. -/
theorem C5_witness :
    ((900000 : Int) < 1000000) ∧ ((900000 : Int) + oneDay < 1000000) ∧
    tsSliceCheck [(500 : Int)] 1000000 900000
      = Except.error "No data in selected date range" ∧
    exportSliceCheck [(500 : Int)] 1000000 900000
      = Except.error "No data in selected date range" :=
  ⟨by decide, by decide,
    (C5_theorem [(500 : Int)] 1000000 900000).2.2.1 (by decide),
    (C5_theorem [(500 : Int)] 1000000 900000).2.2.2.1 (by decide)⟩

/-- C9: the export slices with end + 1 day, so a time step anywhere on the
supplied end day is included there, while the time-series query slices with
the supplied end itself (excluding steps strictly after midnight of that
day); the metadata date-range line of the export shows the original end,
not end + 1 day. -/
theorem C9_theorem (times : List Int) (s e t : Int)
    (ht : t ∈ times) (hs : s ≤ t) (_he : e ≤ t) (hd : t < e + oneDay) :
    exportEndBound e = e + oneDay ∧
    t ∈ exportSliceUsed times s e ∧
    (e < t → t ∉ querySliceUsed times s e) ∧
    exportMetaEnd e = e ∧ queryEndBound e = e := by
  refine ⟨rfl, ?_, ?_, ?_, rfl⟩
  · unfold exportSliceUsed sliceTimes
    rw [List.mem_filter]
    have h2 : t ≤ exportEndBound e := by
      unfold exportEndBound
      exact le_of_lt hd
    simp [ht, hs, h2]
  · intro hlt hmem
    unfold querySliceUsed sliceTimes queryEndBound at hmem
    rw [List.mem_filter] at hmem
    have h2 := hmem.2
    simp only [Bool.and_eq_true, decide_eq_true_eq] at h2
    exact absurd h2.2 (not_le.mpr hlt)
  · unfold exportMetaEnd exportEndBound
    ring

/-- C9 witness: with end = minute 14400 (midnight of the end day) and a time
step at minute 14500 (later that same day), the export slice contains the
step, the query slice does not, and the export metadata shows 14400. -/
theorem C9_witness :
    (14500 : Int) ∈ [(14500 : Int)] ∧ ((0 : Int) ≤ 14500) ∧
    ((14400 : Int) ≤ 14500) ∧ ((14500 : Int) < 14400 + oneDay) ∧
    (exportEndBound 14400 = 14400 + oneDay ∧
      (14500 : Int) ∈ exportSliceUsed [(14500 : Int)] 0 14400 ∧
      ((14400 : Int) < 14500 → (14500 : Int) ∉ querySliceUsed [(14500 : Int)] 0 14400) ∧
      exportMetaEnd 14400 = 14400 ∧ queryEndBound 14400 = 14400) :=
  ⟨by decide, by decide, by decide, by decide,
    C9_theorem [(14500 : Int)] 0 14400 14500 (by decide) (by decide)
      (by decide) (by decide)⟩

/-! ## Export table: constant-column filtering

Model of src/routes.py lines 500-525 (`download_timeseries_csv`).  The
point-resolved dataframe is a list of columns, each a name plus one value
per time-step row (`none` = NaN; values modelled as exact integers):

    df = df.dropna(axis=1, how="all")
    dropped_columns = []
    if not keep_constant:
        for col in df.columns:
            if df[col].nunique(dropna=False) == 1:
                constant_value = df[col].iloc[0] if not df[col].isna().all() else "NaN"
                dropped_columns.append(f"{col}({constant_value})")
        constant_cols = [col for col in df.columns if df[col].nunique(dropna=False) == 1]
        df = df.drop(columns=constant_cols)
    df = df.dropna(axis=1, how="all")
    if not keep_constant:
        constant_cols = [col for col in df.columns if df[col].nunique(dropna=False) == 1]
        df = df.drop(columns=constant_cols)
-/

/-- One column of the export dataframe. -/
structure Col where
  name : String
  vals : List (Option Int)
deriving DecidableEq

/-- `df[col].isna().all()`. -/
def allNaNCol (c : Col) : Bool := c.vals.all Option.isNone

/-- `df.dropna(axis=1, how="all")`: drop the columns whose values are all
missing. -/
def dropAllNaNCols (t : List Col) : List Col := t.filter (fun c => !(allNaNCol c))

/-- `df[col].nunique(dropna=False) == 1`: exactly one distinct value,
counting NaN as a value. -/
def isConstCol (c : Col) : Bool := c.vals.dedup.length == 1

/-- `f"{col}({constant_value})"` with
`constant_value = df[col].iloc[0] if not df[col].isna().all() else "NaN"`
(computed only for constant columns; the non-head arms are unreachable
there but mirror Python's rendering). -/
def constLabel (c : Col) : String :=
  if allNaNCol c then c.name ++ "(NaN)"
  else
    match c.vals.head? with
    | some (some v) => c.name ++ "(" ++ toString v ++ ")"
    | some none => c.name ++ "(nan)"
    | none => c.name ++ "()"

/-- The column-filtering pipeline of the export route, returning the
retained columns and the dropped-columns list. -/
def exportTable : Bool → List Col → List Col × List String
  | true, t => (dropAllNaNCols (dropAllNaNCols t), [])
  | false, t =>
    let t1 := dropAllNaNCols t
    let dropped := (t1.filter isConstCol).map constLabel
    let t2 := t1.filter (fun c => !(isConstCol c))
    let t4 := (dropAllNaNCols t2).filter (fun c => !(isConstCol c))
    (t4, dropped)

lemma dedup_const (l : List (Option Int)) (k : Int) (h : l ≠ [])
    (hall : ∀ v ∈ l, v = some k) : l.dedup = [some k] := by
  induction l with
  | nil => exact absurd rfl h
  | cons a l ih =>
    have ha : a = some k := hall a (List.mem_cons_self a l)
    cases l with
    | nil =>
      rw [ha]
      rfl
    | cons b l' =>
      have hb : b = some k := hall b (List.mem_cons_of_mem a (List.mem_cons_self b l'))
      have hmem : a ∈ b :: l' := by
        rw [ha, hb]
        exact List.mem_cons_self _ _
      rw [List.dedup_cons_of_mem hmem]
      exact ih (by simp) (fun v hv => hall v (List.mem_cons_of_mem a hv))

/-- C7: a column holding exactly one (non-missing) constant value across
all rows is, by default, dropped from the export table and recorded in the
dropped-columns list as "name(value)"; with the retain-constant flag set
the column is kept and the dropped-columns list is empty. -/
theorem C7_theorem (t : List Col) (c : Col) (k : Int)
    (hmem : c ∈ t) (hne : c.vals ≠ []) (hconst : ∀ v ∈ c.vals, v = some k) :
    c ∉ (exportTable false t).1 ∧
    (c.name ++ "(" ++ toString k ++ ")") ∈ (exportTable false t).2 ∧
    c ∈ (exportTable true t).1 ∧ (exportTable true t).2 = [] := by
  obtain ⟨v0, vs, hv⟩ := List.exists_cons_of_ne_nil hne
  have hv0 : v0 = some k := hconst v0 (by rw [hv]; exact List.mem_cons_self _ _)
  have hnotall : allNaNCol c = false := by
    unfold allNaNCol
    rw [hv, hv0]
    simp
  have hisconst : isConstCol c = true := by
    unfold isConstCol
    rw [dedup_const c.vals k hne hconst]
    rfl
  have hmem1 : c ∈ dropAllNaNCols t :=
    List.mem_filter.mpr ⟨hmem, by rw [hnotall]; rfl⟩
  have hlabel : constLabel c = c.name ++ "(" ++ toString k ++ ")" := by
    unfold constLabel
    rw [hnotall]
    simp only [Bool.false_eq_true, if_false]
    rw [hv, hv0]
    rfl
  refine ⟨?_, ?_, ?_, rfl⟩
  · intro hbad
    simp only [exportTable] at hbad
    have := (List.mem_filter.mp hbad).2
    rw [hisconst] at this
    exact Bool.noConfusion this
  · simp only [exportTable]
    rw [← hlabel]
    exact List.mem_map_of_mem constLabel (List.mem_filter.mpr ⟨hmem1, hisconst⟩)
  · simp only [exportTable]
    exact List.mem_filter.mpr ⟨hmem1, by rw [hnotall]; rfl⟩

/-- C7 witness: a column "z" constantly 0 (alongside a varying "time"
column) is dropped by default and recorded as "z(0)", and kept with an
empty dropped list when the retain flag is set. -/
theorem C7_witness :
    ((⟨"z", [some 0, some 0]⟩ : Col) ∈
        [(⟨"time", [some 1, some 2]⟩ : Col), ⟨"z", [some 0, some 0]⟩]) ∧
    ((⟨"z", [some 0, some 0]⟩ : Col) ∉
        (exportTable false [(⟨"time", [some 1, some 2]⟩ : Col), ⟨"z", [some 0, some 0]⟩]).1 ∧
      ("z" ++ "(" ++ toString (0 : Int) ++ ")") ∈
        (exportTable false [(⟨"time", [some 1, some 2]⟩ : Col), ⟨"z", [some 0, some 0]⟩]).2 ∧
      (⟨"z", [some 0, some 0]⟩ : Col) ∈
        (exportTable true [(⟨"time", [some 1, some 2]⟩ : Col), ⟨"z", [some 0, some 0]⟩]).1 ∧
      (exportTable true [(⟨"time", [some 1, some 2]⟩ : Col), ⟨"z", [some 0, some 0]⟩]).2 = []) :=
  ⟨by decide,
    C7_theorem [(⟨"time", [some 1, some 2]⟩ : Col), ⟨"z", [some 0, some 0]⟩]
      ⟨"z", [some 0, some 0]⟩ 0 (by decide) (by decide) (by decide)⟩

/-! ## Export Formatter: cell sanitization

Model of `sanitize_text` (src/routes.py lines 446-453) and of how the
export branches hand cells to their serializers: the DOCX branch
(lines 659-662) first replaces missing values by the string "NaN"
(`df.fillna("NaN").astype(str)`) and then applies `sanitize_text` to every
column name and cell; the CSV branch (line 535, `df.to_csv`) hands values
through unchanged, rendering missing values as the empty string (the
serializer's default missing-value representation). -/

/-- The character classes the sanitizing regex keeps: codepoints 32-126
(printable ASCII) and 160-65535, the common-Unicode range of the pattern. -/
def printableChar (c : Char) : Bool :=
  (32 ≤ c.toNat && c.toNat ≤ 126) || (160 ≤ c.toNat && c.toNat ≤ 65535)

/-- `sanitize_text`: None/NaN becomes the literal "NaN"; any string keeps
exactly its printable characters. -/
def sanitize_text : Option String → String
  | none => "NaN"
  | some s => String.mk (s.data.filter printableChar)

/-- `df.fillna("NaN")` on one (string-rendered) cell. -/
def fillNaStr : Option String → String
  | none => "NaN"
  | some s => s

/-- A cell as handed to the DOCX serializer: fillna then sanitize. -/
def renderDocxCell (v : Option String) : String := sanitize_text (some (fillNaStr v))

/-- A cell as handed to the CSV serializer: unsanitized, missing = "". -/
def renderCsvCell : Option String → String
  | none => ""
  | some s => s

/-- C8 counterexample: in the CSV export a missing value is handed to the
serializer as the empty string, not "NaN", and a cell containing the
control character U+0001 is handed over unstripped — refuting the claim
for every export path except DOCX. -/
theorem C8_counterexample :
    renderCsvCell none = "" ∧ ("" : String) ≠ "NaN" ∧
    renderCsvCell (some (String.mk ['a', Char.ofNat 1, 'b']))
      = String.mk ['a', Char.ofNat 1, 'b'] ∧
    printableChar (Char.ofNat 1) = false :=
  ⟨rfl, by decide, rfl, by decide⟩

/-- C8 (amended): the sanitization function maps None/NaN to the literal
"NaN" and maps any string to the same string with exactly the characters
outside the printable ranges removed (kept characters in order); in the
DOCX export every handed-over cell is so sanitized and missing values
render as "NaN"; the CSV path hands cells over unsanitized. -/
theorem C8_amended (s : String) (v : Option String) :
    sanitize_text none = "NaN" ∧
    renderDocxCell none = "NaN" ∧
    (sanitize_text (some s)).data = s.data.filter printableChar ∧
    (∀ c ∈ (sanitize_text (some s)).data, printableChar c = true) ∧
    List.Sublist (sanitize_text (some s)).data s.data ∧
    (∀ c ∈ s.data, printableChar c = true → c ∈ (sanitize_text (some s)).data) ∧
    (∀ c ∈ (renderDocxCell v).data, printableChar c = true) := by
  refine ⟨rfl, by decide, rfl, ?_, ?_, ?_, ?_⟩
  · intro c hc
    exact (List.mem_filter.mp hc).2
  · exact List.filter_sublist s.data
  · intro c hc hp
    exact List.mem_filter.mpr ⟨hc, hp⟩
  · intro c hc
    exact (List.mem_filter.mp hc).2

/-- C8 witness: sanitizing "a\x01" keeps exactly ['a']; the kept character
is a member because it is printable; a missing DOCX cell renders "NaN". -/
theorem C8_witness :
    (sanitize_text (some (String.mk ['a', Char.ofNat 1]))).data = ['a'] ∧
    ('a' ∈ (sanitize_text (some (String.mk ['a', Char.ofNat 1]))).data) ∧
    renderDocxCell none = "NaN" :=
  ⟨by rw [(C8_amended (String.mk ['a', Char.ofNat 1]) none).2.2.1]; decide,
    (C8_amended (String.mk ['a', Char.ofNat 1]) none).2.2.2.2.2.1 'a'
      (by decide) (by decide),
    (C8_amended (String.mk ['a', Char.ofNat 1]) none).2.1⟩

/-! ## Upload and the process-wide dataset slot

Model of `extract_file_info` (src/routes.py lines 43-104) and `upload_file`
(lines 291-327).  The decode inside `extract_file_info` assigns
`current_dataset['ds']` as soon as it succeeds (lines 48-52), BEFORE the
rest of metadata extraction and before `upload_file`'s own re-open with
`chunks="auto"` (line 316); each fallible library step is modelled by a
flag of the uploaded file, and the slot holds the decoded content. -/

/-- An uploaded file, described by its decoded content and which of the
processing steps succeed on it. -/
structure UploadFile where
  decodesOk : Bool
  content : Nat
  infoOk : Bool
  reopenOk : Bool
deriving DecidableEq

/-- `extract_file_info`: on decode success the process-wide slot is
overwritten immediately; metadata extraction afterwards may still fail
(returning success = false with the slot already replaced). -/
def extract_file_info (slot : Option Nat) (f : UploadFile) : Option Nat × Bool :=
  if f.decodesOk then (some f.content, f.infoOk) else (slot, false)

/-- `upload_file`: runs `extract_file_info`, returns its error on failure,
then re-opens the file (`chunks="auto"`), which may itself fail; the result
is (dataset slot after the request, success flag of the response). -/
def upload_file (slot : Option Nat) (f : UploadFile) : Option Nat × Bool :=
  let r := extract_file_info slot f
  if !r.2 then (r.1, false)
  else if f.reopenOk then (some f.content, true) else (r.1, false)

/-- C10: whenever the initial decode succeeds, the resident dataset slot
ends up holding the new file's dataset regardless of how the rest of the
request fares; in particular there are inputs for which the upload request
returns an error response while the slot has already been replaced. -/
theorem C10_theorem :
    (∀ (prev : Option Nat) (f : UploadFile), f.decodesOk = true →
      (upload_file prev f).1 = some f.content) ∧
    (∃ (prev : Option Nat) (f : UploadFile),
      (upload_file prev f).2 = false ∧ (upload_file prev f).1 = some f.content ∧
      (upload_file prev f).1 ≠ prev) := by
  constructor
  · intro prev f h
    unfold upload_file extract_file_info
    rw [if_pos h]
    cases hI : f.infoOk <;> cases hR : f.reopenOk <;> simp [hI, hR]
  · exact ⟨some 0, ⟨true, 1, true, false⟩, by decide, by decide, by decide⟩

/-- C10 witness: a file that decodes (content 1) but whose re-open fails
leaves the slot replaced (previously dataset 0) while the request reports
failure. -/
theorem C10_witness :
    ((⟨true, 1, true, false⟩ : UploadFile).decodesOk = true) ∧
    (upload_file (some 0) ⟨true, 1, true, false⟩).1
      = some (⟨true, 1, true, false⟩ : UploadFile).content :=
  ⟨rfl, C10_theorem.1 (some 0) ⟨true, 1, true, false⟩ rfl⟩
